import Mathlib

/-!
Verification development for the OT-ICS-Security capture-and-detection
pipeline.  The definitions are a shallow embedding of the Python code in
`backend/services/ml_service.py`, `backend/services/pcap_service.py` and
`backend/core/config.py`: every score is modelled as a rational number,
the per-row outputs of the external sklearn models (IsolationForest
decision function / predict, RandomForestClassifier predict_proba /
predict) are inputs to the embedded combination logic, and exceptions
caught inside the Python code are modelled with `Option`.
-/

namespace OTICS

/-- One feature record, mirroring the dict built by
`PCAPService._extract_packet_features`.  Field defaults mirror the
defaults used by `dict.get` at the consumption sites
(`payload_size` defaults to 0, missing keys read as `none`). -/
structure Features where
  timestamp : Option ℚ := none
  length : Nat := 0
  protocol : String := "OTHER"
  src_ip : Option String := none
  dst_ip : Option String := none
  src_port : Option Nat := none
  dst_port : Option Nat := none
  flags : String := ""
  payload_size : Nat := 0
  is_fragmented : Bool := false
  ttl : Option Nat := none
  window_size : Option Nat := none
  is_modbus : Bool := false
  is_s7 : Bool := false
  is_dnp3 : Bool := false
  industrial_function_code : Option Nat := none
deriving DecidableEq, Repr

/-- Result dict of `MLService._analyze_industrial_protocols`. -/
structure ThreatInfo where
  is_threat : Bool
  score : ℚ
  type : String
deriving DecidableEq, Repr

/-- Output of the isolation-forest model on one row:
`decision_function` value and whether `predict` returned -1.
`none` at the use site models an absent model or a raised exception
(both are swallowed by the Python try/except and contribute nothing). -/
structure IsoResult where
  score : ℚ
  is_anomaly : Bool
deriving DecidableEq, Repr

/-- Output of the trained random-forest classifier on one row: the
predicted class and the maximum of `predict_proba`.  `none` at the use
site models the untrained model (`classes_` missing), an absent model,
or a raised exception. -/
structure RFResult where
  pred_class : Nat
  max_proba : ℚ
deriving DecidableEq, Repr

/-- One prediction dict as built inside
`MLService.analyze_network_traffic` (the `model_predictions` breakdown
sub-dict is not modelled; no claim mentions it). -/
structure Prediction where
  timestamp : Option ℚ
  threat_score : ℚ
  threat_type : String
  confidence : ℚ
  anomaly_score : ℚ
deriving DecidableEq, Repr

/-- The S7 branch guard inside `_analyze_industrial_protocols`:
`timestamp = features.get('timestamp'); if timestamp:` is Python
truthiness (fails on a missing key and on the value 0), then the hour
extracted from the timestamp must be outside 6..22. -/
def s7OffHours (hourOf : ℚ → Nat) : Option ℚ → Bool
  | some ts => ts ≠ 0 && (hourOf ts < 6 || hourOf ts > 22)
  | none => false

/-- `MLService._analyze_industrial_protocols`.  The Python code calls
`datetime.fromtimestamp(timestamp).hour`; the wall-clock-to-hour
conversion is abstracted as the parameter `hourOf`.  The guard
`if timestamp:` is Python truthiness: it fails on a missing key and on
the value 0.  The dict `threat_info` is mutated in sequence, so a firing
S7 branch overwrites a firing Modbus branch; with a single `dst_port`
value both cannot fire at once. -/
def analyzeIndustrialProtocols (hourOf : ℚ → Nat) (f : Features) : ThreatInfo :=
  let t0 : ThreatInfo := { is_threat := false, score := 0, type := "Normal" }
  let t1 :=
    if f.is_modbus ∧ f.dst_port = some 502 ∧
        (f.payload_size > 1000 ∨ f.payload_size = 0) then
      { is_threat := true, score := 8/10, type := "Modbus_Anomaly" }
    else t0
  let t2 :=
    if f.is_s7 ∧ f.dst_port = some 102 ∧
        s7OffHours hourOf f.timestamp = true then
      { is_threat := true, score := 6/10, type := "S7_Off_Hours" }
    else t1
  t2

/-- Isolation-forest block of `analyze_network_traffic`: record the
anomaly score; when the row is flagged as an anomaly, raise the threat
score to at least 0.7 and set the type label. -/
def applyIsolationForest (iso : Option IsoResult) (p : Prediction) : Prediction :=
  match iso with
  | none => p
  | some r =>
    let p1 := { p with anomaly_score := r.score }
    if r.is_anomaly then
      { p1 with threat_score := max p1.threat_score (7/10), threat_type := "Anomaly" }
    else p1

/-- Random-forest block of `analyze_network_traffic`: when the trained
classifier predicts a non-normal class, raise the threat score to at
least the top class probability and set the type label. -/
def applyRandomForest (rf : Option RFResult) (p : Prediction) : Prediction :=
  match rf with
  | none => p
  | some r =>
    if r.pred_class ≠ 0 then
      { p with threat_score := max p.threat_score r.max_proba,
               threat_type := "Classification_" ++ toString r.pred_class }
    else p

/-- Industrial-heuristics block of `analyze_network_traffic`. -/
def applyIndustrial (t : ThreatInfo) (p : Prediction) : Prediction :=
  if t.is_threat then
    { p with threat_score := max p.threat_score t.score, threat_type := t.type }
  else p

/-- The per-row body of `MLService.analyze_network_traffic`: start from
the neutral prediction, run the three detector blocks in program order,
then compute the confidence. -/
def analyzeRow (hourOf : ℚ → Nat) (iso : Option IsoResult) (rf : Option RFResult)
    (f : Features) : Prediction :=
  let p0 : Prediction :=
    { timestamp := f.timestamp, threat_score := 0, threat_type := "Normal",
      confidence := 0, anomaly_score := 0 }
  let p3 := applyIndustrial (analyzeIndustrialProtocols hourOf f)
    (applyRandomForest rf (applyIsolationForest iso p0))
  { p3 with confidence := min (p3.threat_score * (12/10)) 1 }

/-- A batch result element: either a prediction dict or the error dict
produced by the enclosing try/except of `analyze_network_traffic`. -/
inductive AnalysisResult where
  | pred (p : Prediction)
  | error (msg : String)
deriving DecidableEq, Repr

/-- `MLService.analyze_network_traffic` over a batch.  The per-row model
outputs are provided by the oracle `det`, indexed by row position (the
code calls the models on each preprocessed row; preprocessing is
column-wise and preserves the row count and the positional index).
`pipelineError` models the enclosing try/except: when the pipeline
raises as a whole, the code returns one error dict per input feature
record. -/
def analyzeNetworkTraffic (hourOf : ℚ → Nat)
    (det : Nat → Option IsoResult × Option RFResult)
    (pipelineError : Option String) (features : List Features) : List AnalysisResult :=
  match pipelineError with
  | some e => features.map (fun _ => .error e)
  | none =>
    if features.isEmpty then []
    else features.enum.map (fun (i, f) => .pred (analyzeRow hourOf (det i).1 (det i).2 f))

/-- `Settings.THREAT_SCORE_THRESHOLD` default from `core/config.py`. -/
def THREAT_SCORE_THRESHOLD : ℚ := 7/10

/-- `prediction.get('threat_score', 0.0)`: the error dict has no
`threat_score` key, so it reads as 0. -/
def resultThreatScore : AnalysisResult → ℚ
  | .pred p => p.threat_score
  | .error _ => 0

/-- `prediction.get('threat_type', 'Unknown')`. -/
def resultThreatType : AnalysisResult → String
  | .pred p => p.threat_type
  | .error _ => "Unknown"

/-- `PCAPService._calculate_severity`. -/
def calculateSeverity (threat_score : ℚ) : String :=
  if threat_score ≥ 9/10 then "CRITICAL"
  else if threat_score ≥ 8/10 then "HIGH"
  else if threat_score ≥ 7/10 then "MEDIUM"
  else "LOW"

/-- Packet summary fields read by `_create_threat_alert` (the raw bytes
hex dump is not modelled). -/
structure PacketSummary where
  time : ℚ := 0
  src_ip : Option String := none
  dst_ip : Option String := none
  protocol : String := "OTHER"
deriving DecidableEq, Repr

/-- The alert dict built by `PCAPService._create_threat_alert`
(the formatted description string and the raw hex dump are elided). -/
structure AlertData where
  time : ℚ
  threat_type : String
  severity : String
  source_ip : Option String
  destination_ip : Option String
  protocol : String
  threat_score : ℚ
deriving DecidableEq, Repr

/-- `PCAPService._create_threat_alert` on one packet/prediction pair. -/
def createThreatAlert (pk : PacketSummary) (r : AnalysisResult) (ts : ℚ) : AlertData :=
  { time := pk.time
    threat_type := resultThreatType r
    severity := calculateSeverity ts
    source_ip := pk.src_ip
    destination_ip := pk.dst_ip
    protocol := pk.protocol
    threat_score := ts }

/-- `PCAPService._check_for_threats`: walk `zip(packets, predictions)`
and create an alert exactly for the pairs whose threat score is
strictly greater than the configured threshold. -/
def checkForThreats (packets : List PacketSummary) (preds : List AnalysisResult) :
    List AlertData :=
  (packets.zip preds).filterMap (fun pr =>
    if resultThreatScore pr.2 > THREAT_SCORE_THRESHOLD then
      some (createThreatAlert pr.1 pr.2 (resultThreatScore pr.2))
    else none)

/-! ### PCAPService state: file ledger, disk retention, capture lifecycle -/

/-- One entry of `self.file_list`, mirroring the dict appended by
`_create_new_pcap_file`, `_check_for_new_files`, `_initialize_file_list`
and `upload_external_file`. -/
structure FileInfo where
  filename : String
  path : String
  created : Int
  size : Nat
  packet_count : Nat
  prioritized : Bool
deriving DecidableEq, Repr

/-- A file present in the PCAP storage directory, as seen by
`glob.glob` plus `os.stat`: path and creation time. -/
structure DiskEntry where
  path : String
  ctime : Int
deriving DecidableEq, Repr

/-- `MAX_PCAP_FILES_TO_KEEP` / `self.max_files_to_keep` (fixed 15 in
`PCAPService.__init__`). -/
def maxFilesToKeep : Nat := 15

/-- The mutable state of a `PCAPService` instance that the verified
operations touch, together with the storage directory contents.
`file_list` models the `deque(maxlen=15)` with the newest entry last;
`prioritized_files` models the set of flagged paths; `disk` models the
PCAP storage directory. -/
structure PCAPState where
  capture_active : Bool := false
  current_file_path : Option String := none
  packet_count : Nat := 0
  rotation_timer_active : Bool := false
  file_list : List FileInfo := []
  prioritized_files : List String := []
  disk : List DiskEntry := []
deriving DecidableEq, Repr

/-- Append on a `deque(maxlen=n)`: push on the right, drop from the
left when the length would exceed `n`. -/
def dequeAppend (n : Nat) (l : List α) (x : α) : List α :=
  let l2 := l ++ [x]
  if l2.length > n then l2.drop (l2.length - n) else l2

/-- Stable insertion by creation time (ascending), used to model the
stable `list.sort(key=lambda x: x[1])` in `_cleanup_old_files`. -/
def insertByCtime (e : DiskEntry) : List DiskEntry → List DiskEntry
  | [] => [e]
  | x :: xs => if e.ctime ≤ x.ctime then e :: x :: xs else x :: insertByCtime e xs

/-- Stable ascending sort by creation time. -/
def sortByCtime (l : List DiskEntry) : List DiskEntry :=
  l.foldr insertByCtime []

/-- `PCAPService._cleanup_old_files`: when the storage directory holds
more than `max_files_to_keep` files, sort them by creation time and
delete the oldest ones beyond the limit, skipping (with a log only)
every file whose path is in `prioritized_files`.  Only the directory is
touched; the `file_list` deque is not. -/
def cleanupOldFiles (st : PCAPState) : PCAPState :=
  if st.disk.length ≤ maxFilesToKeep then st
  else
    let sorted := sortByCtime st.disk
    let toRemove := sorted.take (sorted.length - maxFilesToKeep)
    { st with disk := st.disk.filter (fun e =>
        decide (e ∉ toRemove ∨ e.path ∈ st.prioritized_files)) }

/-- `PCAPService._create_new_pcap_file`: append the new file record to
the bounded deque, create the file on disk (the capture writer opens it
at the new path), then run the retention cleanup.  Also records the new
current file path as `_capture_packets` and `_rotate_file` do. -/
def createNewPcapFile (st : PCAPState) (fi : FileInfo) : PCAPState :=
  let st1 := { st with
    file_list := dequeAppend maxFilesToKeep st.file_list fi,
    disk := st.disk ++ [{ path := fi.path, ctime := fi.created }],
    current_file_path := some fi.path }
  cleanupOldFiles st1

/-- `PCAPService._check_for_new_files` on one newly detected file:
append its record to the bounded deque (no cleanup pass here). -/
def detectNewFile (st : PCAPState) (fi : FileInfo) : PCAPState :=
  { st with file_list := dequeAppend maxFilesToKeep st.file_list fi }

/-- Replace the first list element satisfying `p` by `f` of it,
mirroring a Python for-loop that mutates the first match and returns. -/
def updateFirst (p : α → Bool) (f : α → α) : List α → List α
  | [] => []
  | x :: xs => if p x then f x :: xs else x :: updateFirst p f xs

/-- `PCAPService.flag_file_for_training`: find the first ledger entry
with the given filename, set its `prioritized` flag and add its path to
the prioritized set; report whether a file was found. -/
def flagFileForTraining (st : PCAPState) (filename : String) : PCAPState × Bool :=
  match st.file_list.find? (fun fi => fi.filename = filename) with
  | none => (st, false)
  | some fi =>
    ({ st with
        file_list := updateFirst (fun g => g.filename = filename)
          (fun g => { g with prioritized := true }) st.file_list,
        prioritized_files :=
          if fi.path ∈ st.prioritized_files then st.prioritized_files
          else fi.path :: st.prioritized_files }, true)

/-- `PCAPService.unflag_file_for_training`: find the first ledger entry
with the given filename, clear its flag and discard its path from the
prioritized set; report whether a file was found. -/
def unflagFileForTraining (st : PCAPState) (filename : String) : PCAPState × Bool :=
  match st.file_list.find? (fun fi => fi.filename = filename) with
  | none => (st, false)
  | some fi =>
    ({ st with
        file_list := updateFirst (fun g => g.filename = filename)
          (fun g => { g with prioritized := false }) st.file_list,
        prioritized_files := st.prioritized_files.filter (fun p => p ≠ fi.path) }, true)

/-- `PCAPService.upload_external_file`: copy the file into the storage
directory, append its record to the deque, then run the retention
cleanup. -/
def uploadExternalFile (st : PCAPState) (fi : FileInfo) : PCAPState :=
  let st1 := { st with
    disk := st.disk ++ [{ path := fi.path, ctime := fi.created }],
    file_list := dequeAppend maxFilesToKeep st.file_list fi }
  cleanupOldFiles st1

/-- `PCAPService.get_recent_files` (`list(self.file_list)`). -/
def getRecentFiles (st : PCAPState) : List FileInfo :=
  st.file_list

/-- The ledger / retention operations a run of the service performs.
`createFile` covers file creation at session start and at every
rotation boundary (`_rotate_file` and `_capture_packets` both call
`_create_new_pcap_file`); `detectFile` covers external-backend files
picked up by `_check_for_new_files`; `upload` covers
`upload_external_file`; `cleanup` is an explicit retention pass. -/
inductive LedgerOp where
  | createFile (fi : FileInfo)
  | detectFile (fi : FileInfo)
  | upload (fi : FileInfo)
  | cleanup
  | flag (filename : String)
  | unflag (filename : String)
deriving DecidableEq, Repr

/-- Apply one ledger operation to the service state. -/
def applyOp (st : PCAPState) : LedgerOp → PCAPState
  | .createFile fi => createNewPcapFile st fi
  | .detectFile fi => detectNewFile st fi
  | .upload fi => uploadExternalFile st fi
  | .cleanup => cleanupOldFiles st
  | .flag fn => (flagFileForTraining st fn).1
  | .unflag fn => (unflagFileForTraining st fn).1

/-- Run a sequence of ledger operations. -/
def runOps (st : PCAPState) : List LedgerOp → PCAPState
  | [] => st
  | op :: ops => runOps (applyOp st op) ops

/-- The state right after `PCAPService.__init__`: empty deque, empty
prioritized set, capture inactive; the storage directory may already
hold arbitrary files. -/
def initialState (disk : List DiskEntry) : PCAPState :=
  { disk := disk }

/-- `PCAPService._initialize_file_list`: list the directory, sort by
creation time newest first, keep the most recent 15 and append each to
the deque (`packet_count` starts at 0 and sizes are refreshed later by
`_update_file_statistics`; the path doubles as the basename here). -/
def initializeFileList (st : PCAPState) : PCAPState :=
  let sorted := (sortByCtime st.disk).reverse
  let recent := sorted.take 15
  { st with file_list := recent.foldl (fun acc e =>
      dequeAppend maxFilesToKeep acc
        { filename := e.path, path := e.path, created := e.ctime,
          size := 0, packet_count := 0, prioritized := false }) st.file_list }

/-- Observable side effects of one `start_capture_service` call:
whether the already-active warning was logged, and which background
workers were started by this call. -/
structure StartEffects where
  warnedAlreadyActive : Bool
  startedWiresharkProcess : Bool
  startedScapyTask : Bool
  startedRotationTimer : Bool
deriving DecidableEq, Repr

/-- `PCAPService.start_capture_service`.  When a capture is already
active the call logs the already-active warning and returns at once,
touching nothing.  Otherwise it marks the capture active, initialises
the file list from the directory, starts either the tshark process
(which creates the initial capture file, a fresh timestamped record
passed here as `newFile`) or the Scapy capture task, and starts the
rotation timer. -/
def startCaptureService (st : PCAPState) (useWireshark tsharkAvailable : Bool)
    (newFile : FileInfo) : PCAPState × StartEffects :=
  if st.capture_active then
    (st, { warnedAlreadyActive := true, startedWiresharkProcess := false,
           startedScapyTask := false, startedRotationTimer := false })
  else
    let st1 := initializeFileList { st with capture_active := true }
    if useWireshark && tsharkAvailable then
      let st2 := { createNewPcapFile st1 newFile with rotation_timer_active := true }
      (st2, { warnedAlreadyActive := false, startedWiresharkProcess := true,
              startedScapyTask := false, startedRotationTimer := true })
    else
      ({ st1 with rotation_timer_active := true },
       { warnedAlreadyActive := false, startedWiresharkProcess := false,
         startedScapyTask := true, startedRotationTimer := true })

/-- `PCAPService._extract_packet_features`: loop over the packets, and
for each packet build its feature record; any exception while reading a
packet is caught, logged at debug level, and the loop continues with
the next packet.  The fallible per-packet feature computation is the
parameter `parse` (`none` models a raised exception); the service state
is threaded through explicitly to show the method neither reads nor
writes any instance field. -/
def extractPacketFeatures (parse : α → Option Features) (st : PCAPState) :
    List α → PCAPState × List Features
  | [] => (st, [])
  | p :: ps =>
    match parse p with
    | some f =>
      let r := extractPacketFeatures parse st ps
      (r.1, f :: r.2)
    | none => extractPacketFeatures parse st ps

/-! ### Detector contributions and firing -/

/-- Whether the isolation-forest block raises the threat score. -/
def isoFires : Option IsoResult → Bool
  | some r => r.is_anomaly
  | none => false

/-- Score contributed by the isolation-forest block when it fires
(the code raises the threat score to at least 0.7). -/
def isoContribution (iso : Option IsoResult) : Option ℚ :=
  if isoFires iso then some (7/10) else none

/-- Score contributed by the random-forest block when it fires
(the top class probability, for a non-normal predicted class). -/
def rfContribution : Option RFResult → Option ℚ
  | some r => if r.pred_class ≠ 0 then some r.max_proba else none
  | none => none

/-- Type label contributed by the random-forest block when it fires. -/
def rfLabel : Option RFResult → Option String
  | some r => if r.pred_class ≠ 0 then some ("Classification_" ++ toString r.pred_class) else none
  | none => none

/-- Score contributed by the industrial-heuristics block when it fires. -/
def indContribution (t : ThreatInfo) : Option ℚ :=
  if t.is_threat then some t.score else none

/-- Raise a running score by an optional detector contribution. -/
def bump (c : Option ℚ) (s : ℚ) : ℚ :=
  match c with
  | some v => max s v
  | none => s

/-- The scores of the detectors that fire on a row, in program order. -/
def firedScores (hourOf : ℚ → Nat) (iso : Option IsoResult) (rf : Option RFResult)
    (f : Features) : List ℚ :=
  (isoContribution iso).toList ++ (rfContribution rf).toList ++
    (indContribution (analyzeIndustrialProtocols hourOf f)).toList

/-- The maximum of a list of scores, starting from the neutral score 0
the code initialises `threat_score` with. -/
def listMax (l : List ℚ) : ℚ := l.foldl max 0

/-- The label of the last detector that fires on a row, in the program
order anomaly detector, classifier, industrial heuristics. -/
def lastFiredLabel (hourOf : ℚ → Nat) (iso : Option IsoResult) (rf : Option RFResult)
    (f : Features) : String :=
  let ind := analyzeIndustrialProtocols hourOf f
  if ind.is_threat then ind.type
  else
    match rfLabel rf with
    | some s => s
    | none => if isoFires iso then "Anomaly" else "Normal"

/-- A concrete prediction with the maximal score 1, used in closed
statements about the alert stage. -/
def fullScorePrediction : Prediction :=
  { timestamp := none, threat_score := 1, threat_type := "Anomaly",
    confidence := 1, anomaly_score := 0 }

/-- A concrete packet summary with no addresses. -/
def emptyPacket : PacketSummary := {}

/-- Isolation-forest output used in closed statements: the row is
flagged anomalous (predict returned -1), decision value 0. -/
def anomalousIso : IsoResult := { score := 0, is_anomaly := true }

/-- Classifier output used in closed statements: a non-normal class
whose top probability is one half. -/
def halfProbaRF : RFResult := { pred_class := 1, max_proba := 1/2 }

/-- A feature sample with every flag at its default (no industrial
protocol, no timestamp). -/
def plainSample : Features := {}

/-- A service state with a nonzero packet counter, used to show that
feature extraction changes no instance field. -/
def busyState : PCAPState := { packet_count := 7 }

/-- A concrete capture-file record used in closed statements. -/
def sampleFile : FileInfo :=
  { filename := "capture_20250101_000000.pcap",
    path := "pcaps/capture_20250101_000000.pcap",
    created := 100, size := 0, packet_count := 0, prioritized := false }

/-- A state with one pinned file on disk, used in closed statements. -/
def pinnedState : PCAPState :=
  { disk := [{ path := "pcaps/a.pcap", ctime := 0 }],
    prioritized_files := ["pcaps/a.pcap"] }

/-- The hour function used in closed statements: every timestamp reads
as noon. -/
def noonHour : ℚ → Nat := fun _ => 12

/-- A Modbus feature sample on port 502 with empty payload. -/
def modbusSample : Features := { is_modbus := true, dst_port := some 502 }

/-! ### Step lemmas for the ensemble -/

theorem applyIsolationForest_score (iso : Option IsoResult) (p : Prediction) :
    (applyIsolationForest iso p).threat_score = bump (isoContribution iso) p.threat_score := by
  cases iso with
  | none => rfl
  | some r =>
    simp only [applyIsolationForest, isoContribution, isoFires, bump]
    by_cases h : r.is_anomaly = true <;> simp [h]

theorem applyRandomForest_score (rf : Option RFResult) (p : Prediction) :
    (applyRandomForest rf p).threat_score = bump (rfContribution rf) p.threat_score := by
  cases rf with
  | none => rfl
  | some r =>
    simp only [applyRandomForest, rfContribution, bump]
    by_cases h : r.pred_class = 0 <;> simp [h]

theorem applyIndustrial_score (t : ThreatInfo) (p : Prediction) :
    (applyIndustrial t p).threat_score = bump (indContribution t) p.threat_score := by
  simp only [applyIndustrial, indContribution, bump]
  by_cases h : t.is_threat <;> simp [h]

theorem applyIsolationForest_type (iso : Option IsoResult) (p : Prediction) :
    (applyIsolationForest iso p).threat_type =
      if isoFires iso then "Anomaly" else p.threat_type := by
  cases iso with
  | none => rfl
  | some r =>
    simp only [applyIsolationForest, isoFires]
    by_cases h : r.is_anomaly = true <;> simp [h]

theorem applyRandomForest_type (rf : Option RFResult) (p : Prediction) :
    (applyRandomForest rf p).threat_type = (rfLabel rf).getD p.threat_type := by
  cases rf with
  | none => rfl
  | some r =>
    simp only [applyRandomForest, rfLabel]
    by_cases h : r.pred_class = 0 <;> simp [h]

theorem applyIndustrial_type (t : ThreatInfo) (p : Prediction) :
    (applyIndustrial t p).threat_type =
      if t.is_threat then t.type else p.threat_type := by
  simp only [applyIndustrial]
  by_cases h : t.is_threat <;> simp [h]

/-- The threat score of a row is the three bump steps in program order. -/
theorem analyzeRow_score (hourOf : ℚ → Nat) (iso : Option IsoResult)
    (rf : Option RFResult) (f : Features) :
    (analyzeRow hourOf iso rf f).threat_score =
      bump (indContribution (analyzeIndustrialProtocols hourOf f))
        (bump (rfContribution rf) (bump (isoContribution iso) 0)) := by
  simp only [analyzeRow]
  rw [applyIndustrial_score, applyRandomForest_score, applyIsolationForest_score]

/-- The threat type of a row. -/
theorem analyzeRow_type (hourOf : ℚ → Nat) (iso : Option IsoResult)
    (rf : Option RFResult) (f : Features) :
    (analyzeRow hourOf iso rf f).threat_type = lastFiredLabel hourOf iso rf f := by
  simp only [analyzeRow, lastFiredLabel]
  rw [applyIndustrial_type, applyRandomForest_type, applyIsolationForest_type]
  cases h : rfLabel rf <;>
    by_cases hi : (analyzeIndustrialProtocols hourOf f).is_threat <;>
    simp [hi]

theorem bump_toList_foldl (c : Option ℚ) (s : ℚ) :
    c.toList.foldl max s = bump c s := by
  cases c <;> rfl

theorem le_bump (c : Option ℚ) (s : ℚ) : s ≤ bump c s := by
  cases c with
  | none => exact le_refl s
  | some v => exact le_max_left s v

theorem bump_mono (c : Option ℚ) {s t : ℚ} (h : s ≤ t) : bump c s ≤ bump c t := by
  cases c with
  | none => exact h
  | some v => exact max_le_max h (le_refl v)

/-! ### Ledger lemmas -/

theorem dequeAppend_length_le {α : Type} (n : Nat) (l : List α) (x : α)
    (h : l.length ≤ n) : (dequeAppend n l x).length ≤ n := by
  simp only [dequeAppend]
  split
  · rename_i hgt
    simp only [List.length_drop, List.length_append, List.length_singleton] at *
    omega
  · rename_i hle
    simp only [List.length_append, List.length_singleton, gt_iff_lt, not_lt] at *
    omega

theorem updateFirst_length {α : Type} (p : α → Bool) (f : α → α) (l : List α) :
    (updateFirst p f l).length = l.length := by
  induction l with
  | nil => rfl
  | cons x xs ih =>
    simp only [updateFirst]
    split <;> simp [ih]

theorem cleanupOldFiles_file_list (st : PCAPState) :
    (cleanupOldFiles st).file_list = st.file_list := by
  unfold cleanupOldFiles
  split <;> rfl

theorem cleanupOldFiles_prioritized (st : PCAPState) :
    (cleanupOldFiles st).prioritized_files = st.prioritized_files := by
  unfold cleanupOldFiles
  split <;> rfl

theorem flagFileForTraining_file_list_length (st : PCAPState) (fn : String) :
    ((flagFileForTraining st fn).1.file_list).length = st.file_list.length := by
  unfold flagFileForTraining
  split <;> simp [updateFirst_length]

theorem unflagFileForTraining_file_list_length (st : PCAPState) (fn : String) :
    ((unflagFileForTraining st fn).1.file_list).length = st.file_list.length := by
  unfold unflagFileForTraining
  split <;> simp [updateFirst_length]

theorem applyOp_file_list_le (st : PCAPState) (op : LedgerOp)
    (h : st.file_list.length ≤ maxFilesToKeep) :
    ((applyOp st op).file_list).length ≤ maxFilesToKeep := by
  cases op with
  | createFile fi =>
    simp only [applyOp, createNewPcapFile, cleanupOldFiles_file_list]
    exact dequeAppend_length_le _ _ _ h
  | detectFile fi =>
    simp only [applyOp, detectNewFile]
    exact dequeAppend_length_le _ _ _ h
  | upload fi =>
    simp only [applyOp, uploadExternalFile, cleanupOldFiles_file_list]
    exact dequeAppend_length_le _ _ _ h
  | cleanup => simpa [applyOp, cleanupOldFiles_file_list] using h
  | flag fn => simpa [applyOp, flagFileForTraining_file_list_length] using h
  | unflag fn => simpa [applyOp, unflagFileForTraining_file_list_length] using h

theorem runOps_file_list_le (ops : List LedgerOp) (st : PCAPState)
    (h : st.file_list.length ≤ maxFilesToKeep) :
    ((runOps st ops).file_list).length ≤ maxFilesToKeep := by
  induction ops generalizing st with
  | nil => exact h
  | cons op ops ih => exact ih _ (applyOp_file_list_le st op h)

theorem cleanupOldFiles_keeps_pinned (st : PCAPState) (e : DiskEntry)
    (he : e ∈ st.disk) (hp : e.path ∈ st.prioritized_files) :
    e ∈ (cleanupOldFiles st).disk := by
  unfold cleanupOldFiles
  split
  · exact he
  · simp only [List.mem_filter]
    exact ⟨he, by simp [hp]⟩

theorem flagFileForTraining_keeps_prioritized (st : PCAPState) (fn p : String)
    (hp : p ∈ st.prioritized_files) :
    p ∈ (flagFileForTraining st fn).1.prioritized_files := by
  unfold flagFileForTraining
  split
  · exact hp
  · simp only
    split
    · exact hp
    · exact List.mem_cons_of_mem _ hp

theorem applyOp_keeps_pinned_on_disk (st : PCAPState) (op : LedgerOp)
    (hnu : ∀ fn, op ≠ LedgerOp.unflag fn) (e : DiskEntry)
    (he : e ∈ st.disk) (hp : e.path ∈ st.prioritized_files) :
    e ∈ (applyOp st op).disk ∧ e.path ∈ (applyOp st op).prioritized_files := by
  cases op with
  | createFile fi =>
    simp only [applyOp, createNewPcapFile, cleanupOldFiles_prioritized]
    exact ⟨cleanupOldFiles_keeps_pinned _ e (List.mem_append_left _ he) hp, hp⟩
  | detectFile fi => exact ⟨he, hp⟩
  | upload fi =>
    simp only [applyOp, uploadExternalFile, cleanupOldFiles_prioritized]
    exact ⟨cleanupOldFiles_keeps_pinned _ e (List.mem_append_left _ he) hp, hp⟩
  | cleanup =>
    simp only [applyOp, cleanupOldFiles_prioritized]
    exact ⟨cleanupOldFiles_keeps_pinned st e he hp, hp⟩
  | flag fn =>
    refine ⟨?_, flagFileForTraining_keeps_prioritized st fn e.path hp⟩
    simp only [applyOp]
    unfold flagFileForTraining
    split
    · exact he
    · exact he
  | unflag fn => exact absurd rfl (hnu fn)

theorem runOps_keeps_pinned_on_disk (ops : List LedgerOp) (st : PCAPState)
    (hnu : ∀ fn, LedgerOp.unflag fn ∉ ops) (e : DiskEntry)
    (he : e ∈ st.disk) (hp : e.path ∈ st.prioritized_files) :
    e ∈ (runOps st ops).disk ∧ e.path ∈ (runOps st ops).prioritized_files := by
  induction ops generalizing st with
  | nil => exact ⟨he, hp⟩
  | cons op ops ih =>
    have hop : ∀ fn, op ≠ LedgerOp.unflag fn := by
      intro fn hfn
      exact hnu fn (by simp [hfn])
    have hstep := applyOp_keeps_pinned_on_disk st op hop e he hp
    exact ih _ (fun fn h => hnu fn (List.mem_cons_of_mem _ h)) hstep.1 hstep.2

/-! ### Theorems -/

/-- C6: severity bucketing is a pure deterministic total function of
the score with exact boundaries: CRITICAL iff the score is at least
0.9, HIGH iff it is in [0.8, 0.9), MEDIUM iff it is in [0.7, 0.8), LOW
iff it is below 0.7; and 0.95 maps to CRITICAL, 0.85 to HIGH, 0.75 to
MEDIUM, 0.5 to LOW. -/
theorem severity_buckets_exact (s : ℚ) :
    (calculateSeverity s = "CRITICAL" ↔ 9/10 ≤ s) ∧
    (calculateSeverity s = "HIGH" ↔ 8/10 ≤ s ∧ s < 9/10) ∧
    (calculateSeverity s = "MEDIUM" ↔ 7/10 ≤ s ∧ s < 8/10) ∧
    (calculateSeverity s = "LOW" ↔ s < 7/10) ∧
    calculateSeverity (95/100) = "CRITICAL" ∧
    calculateSeverity (85/100) = "HIGH" ∧
    calculateSeverity (75/100) = "MEDIUM" ∧
    calculateSeverity (5/10) = "LOW" := by
  refine ⟨?_, ?_, ?_, ?_,
    by norm_num [calculateSeverity], by norm_num [calculateSeverity],
    by norm_num [calculateSeverity], by norm_num [calculateSeverity]⟩ <;>
    unfold calculateSeverity <;>
    split_ifs <;>
    simp_all <;>
    first
      | linarith
      | (intro h; linarith)

/-- C4: the final threat score of a row equals the maximum of the
scores contributed by the detectors that fire (0.7 for the anomaly
detector, the top class probability for the classifier, the heuristic
score for the industrial rules), floored at the neutral score 0; and it
is monotone non-decreasing as additional detectors fire on the same
sample: adding a firing isolation-forest result or a firing classifier
result never lowers the final score. -/
theorem threat_score_max_combination (hourOf : ℚ → Nat) (iso : Option IsoResult)
    (rf : Option RFResult) (f : Features) :
    (analyzeRow hourOf iso rf f).threat_score = listMax (firedScores hourOf iso rf f) ∧
    (∀ r : IsoResult, (analyzeRow hourOf none rf f).threat_score ≤
        (analyzeRow hourOf (some r) rf f).threat_score) ∧
    (∀ r : RFResult, (analyzeRow hourOf iso none f).threat_score ≤
        (analyzeRow hourOf iso (some r) f).threat_score) := by
  refine ⟨?_, ?_, ?_⟩
  · rw [analyzeRow_score]
    simp only [listMax, firedScores, List.foldl_append, bump_toList_foldl]
  · intro r
    rw [analyzeRow_score, analyzeRow_score]
    exact bump_mono _ (bump_mono _ (le_bump (isoContribution (some r)) 0))
  · intro r
    rw [analyzeRow_score, analyzeRow_score]
    exact bump_mono _ (le_bump (rfContribution (some r)) (bump (isoContribution iso) 0))

/-- C5 counterexample: the anomaly detector fires with contribution 0.7
and its label, then the classifier fires with the strictly lower
contribution 0.5; the final score is 0.7 (the anomaly contribution is
the maximum) yet the reported type is the classifier label, not the
anomaly label.  This refutes the claim that the type comes from the
detector with the maximum score and that a lower-scoring detector
firing later never replaces the type. -/
theorem threat_type_counterexample :
    isoContribution (some anomalousIso) = some (7/10) ∧
    rfContribution (some halfProbaRF) = some (1/2) ∧
    (1 : ℚ)/2 < 7/10 ∧
    (analyzeRow noonHour (some anomalousIso) (some halfProbaRF)
      plainSample).threat_score = 7/10 ∧
    (analyzeRow noonHour (some anomalousIso) (some halfProbaRF)
      plainSample).threat_type = "Classification_1" ∧
    "Classification_1" ≠ "Anomaly" := by
  refine ⟨rfl, rfl, by norm_num, ?_, ?_, by decide⟩
  · rw [analyzeRow_score]
    simp [bump, isoContribution, isoFires, rfContribution, indContribution,
      analyzeIndustrialProtocols, anomalousIso, halfProbaRF, plainSample]
    norm_num [max_def]
  · rw [analyzeRow_type]
    simp [lastFiredLabel, rfLabel, analyzeIndustrialProtocols, anomalousIso,
      halfProbaRF, plainSample]
    rfl

/-- C5 amended: the reported threat type is the label of the last
detector that fires, in the fixed program order anomaly detector,
classifier, industrial heuristics, regardless of the scores; when no
detector fires the type is the Normal label. -/
theorem threat_type_is_last_fired (hourOf : ℚ → Nat) (iso : Option IsoResult)
    (rf : Option RFResult) (f : Features) :
    (analyzeRow hourOf iso rf f).threat_type = lastFiredLabel hourOf iso rf f ∧
    lastFiredLabel hourOf none none f =
      (if (analyzeIndustrialProtocols hourOf f).is_threat then
        (analyzeIndustrialProtocols hourOf f).type else "Normal") := by
  refine ⟨analyzeRow_type hourOf iso rf f, ?_⟩
  simp [lastFiredLabel, rfLabel, isoFires]

/-- C9: on any feature sample with the Modbus flag set, destination
port 502 and payload size 0 or above 1000, the industrial heuristic
fires with score 0.8 and the Modbus anomaly label, so the final
prediction has threat score at least 0.8 and that threat type,
whatever the other detectors report. -/
theorem modbus_anomaly_scenario (hourOf : ℚ → Nat) (iso : Option IsoResult)
    (rf : Option RFResult) (f : Features)
    (hm : f.is_modbus = true) (hp : f.dst_port = some 502)
    (hs : f.payload_size = 0 ∨ f.payload_size > 1000) :
    8/10 ≤ (analyzeRow hourOf iso rf f).threat_score ∧
    (analyzeRow hourOf iso rf f).threat_type = "Modbus_Anomaly" := by
  have h102 : ¬ (f.is_s7 = true ∧ f.dst_port = some 102 ∧
      s7OffHours hourOf f.timestamp = true) := by
    rintro ⟨-, h, -⟩
    rw [hp] at h
    exact absurd h (by simp)
  have hind : analyzeIndustrialProtocols hourOf f =
      { is_threat := true, score := 8/10, type := "Modbus_Anomaly" } := by
    simp only [analyzeIndustrialProtocols]
    rw [if_neg h102, if_pos ⟨hm, hp, Or.symm hs⟩]
  constructor
  · rw [analyzeRow_score, hind]
    exact le_max_right _ _
  · rw [analyzeRow_type]
    simp [lastFiredLabel, hind]

/-- C9 witness: a concrete Modbus packet with payload size 0 on port
502 and no other detector output. -/
theorem modbus_anomaly_scenario_witness :
    8/10 ≤ (analyzeRow noonHour none none modbusSample).threat_score ∧
    (analyzeRow noonHour none none modbusSample).threat_type = "Modbus_Anomaly" :=
  modbus_anomaly_scenario noonHour none none modbusSample rfl rfl (Or.inl rfl)

/-- C10: the batch analysis preserves the batch length — one
prediction per input feature record when the pipeline runs, one error
record per input when the enclosing try/except fires, and the empty
list for the empty input. -/
theorem analyze_batch_length (hourOf : ℚ → Nat)
    (det : Nat → Option IsoResult × Option RFResult)
    (pipelineError : Option String) (features : List Features) :
    (analyzeNetworkTraffic hourOf det pipelineError features).length = features.length ∧
    analyzeNetworkTraffic hourOf det pipelineError [] = [] := by
  constructor
  · cases pipelineError with
    | some e => simp [analyzeNetworkTraffic]
    | none =>
      by_cases h : features.isEmpty
      · simp [analyzeNetworkTraffic, h, List.isEmpty_iff.mp h]
      · simp [analyzeNetworkTraffic, h, List.enum_length]
  · cases pipelineError <;> simp [analyzeNetworkTraffic]

/-- C3 counterexample: a prediction whose threat score is exactly the
threshold (the anomaly detector firing alone yields exactly 0.7)
produces no alert, because `_check_for_threats` compares with strict
greater-than; the claim says a prediction at the threshold alerts. -/
theorem alert_at_threshold_counterexample :
    resultThreatScore (AnalysisResult.pred (analyzeRow noonHour
      (some anomalousIso) none plainSample)) = THREAT_SCORE_THRESHOLD ∧
    checkForThreats [emptyPacket] [AnalysisResult.pred (analyzeRow noonHour
      (some anomalousIso) none plainSample)] = [] := by
  have hscore : resultThreatScore (AnalysisResult.pred (analyzeRow noonHour
      (some anomalousIso) none plainSample)) = 7/10 := by
    simp only [resultThreatScore]
    rw [analyzeRow_score]
    simp [bump, isoContribution, isoFires, rfContribution, indContribution,
      analyzeIndustrialProtocols, anomalousIso, plainSample]
    norm_num [max_def]
  refine ⟨hscore, ?_⟩
  simp [checkForThreats, hscore, THREAT_SCORE_THRESHOLD]

/-- C3 amended: an alert is created for a prediction if and only if its
threat score is strictly greater than the configured threshold (default
0.7); a prediction exactly at the threshold produces no alert, and
every emitted alert carries a score strictly above the threshold. -/
theorem alert_iff_strictly_above_threshold :
    (∀ (pk : PacketSummary) (r : AnalysisResult),
        checkForThreats [pk] [r] ≠ [] ↔ THREAT_SCORE_THRESHOLD < resultThreatScore r) ∧
    (∀ (packets : List PacketSummary) (preds : List AnalysisResult)
        (a : AlertData), a ∈ checkForThreats packets preds →
        THREAT_SCORE_THRESHOLD < a.threat_score) := by
  constructor
  · intro pk r
    by_cases h : THREAT_SCORE_THRESHOLD < resultThreatScore r <;>
      simp [checkForThreats, h]
  · intro packets preds a ha
    simp only [checkForThreats, List.mem_filterMap] at ha
    obtain ⟨pr, -, hpr⟩ := ha
    by_cases h : THREAT_SCORE_THRESHOLD < resultThreatScore pr.2
    · rw [if_pos h] at hpr
      cases hpr
      simpa [createThreatAlert] using h
    · rw [if_neg h] at hpr
      cases hpr

/-- C3 amended witness: a prediction with score 1 paired with a packet
yields an alert, and that alert carries a score above the threshold. -/
theorem alert_iff_strictly_above_threshold_witness :
    (checkForThreats [emptyPacket] [AnalysisResult.pred fullScorePrediction] ≠ []) ∧
    THREAT_SCORE_THRESHOLD <
      (createThreatAlert emptyPacket (AnalysisResult.pred fullScorePrediction)
        1).threat_score := by
  constructor
  · exact (alert_iff_strictly_above_threshold.1 emptyPacket _).mpr
      (by norm_num [resultThreatScore, fullScorePrediction, THREAT_SCORE_THRESHOLD])
  · exact alert_iff_strictly_above_threshold.2 [emptyPacket]
      [AnalysisResult.pred fullScorePrediction] _ (by
        simp [checkForThreats, resultThreatScore, fullScorePrediction,
          THREAT_SCORE_THRESHOLD]
        norm_num)

/-- C1: across every sequence of ledger registrations, flags and
cleanup passes (no unflag), a file on disk whose path is pinned stays
on disk and stays pinned — automatic eviction never deletes it,
however old it is; and when every file on disk is pinned, a cleanup
pass deletes nothing at all (it only logs), even above capacity. -/
theorem pinned_never_evicted :
    (∀ (ops : List LedgerOp) (st : PCAPState) (e : DiskEntry),
        (∀ fn, LedgerOp.unflag fn ∉ ops) →
        e ∈ st.disk → e.path ∈ st.prioritized_files →
        e ∈ (runOps st ops).disk ∧ e.path ∈ (runOps st ops).prioritized_files) ∧
    (∀ st : PCAPState, (∀ e ∈ st.disk, e.path ∈ st.prioritized_files) →
        (cleanupOldFiles st).disk = st.disk) := by
  constructor
  · intro ops st e hnu he hp
    exact runOps_keeps_pinned_on_disk ops st hnu e he hp
  · intro st hall
    unfold cleanupOldFiles
    split
    · rfl
    · simp only
      refine List.filter_eq_self.mpr ?_
      intro e he
      simp [hall e he]

/-- C1 witness: a pinned file survives a cleanup pass, and a state
whose only disk file is pinned is left intact by cleanup. -/
theorem pinned_never_evicted_witness :
    (DiskEntry.mk "pcaps/a.pcap" 0 ∈
        (runOps pinnedState [LedgerOp.cleanup]).disk ∧
      "pcaps/a.pcap" ∈ (runOps pinnedState [LedgerOp.cleanup]).prioritized_files) ∧
    (cleanupOldFiles pinnedState).disk = pinnedState.disk := by
  constructor
  · exact pinned_never_evicted.1 [LedgerOp.cleanup] pinnedState
      (DiskEntry.mk "pcaps/a.pcap" 0)
      (by intro fn h; simp at h) (by simp [pinnedState]) (by simp [pinnedState])
  · exact pinned_never_evicted.2 pinnedState (by
      intro e he
      simp [pinnedState] at he
      simp [pinnedState, he])

/-- C2: starting from a freshly initialised service (empty deque) over
any storage directory, every sequence of file creations, rotations,
detections, uploads, flags, unflags and cleanup passes leaves the file
ledger with at most 15 entries, and the list returned by
`get_recent_files` never has more than 15 elements. -/
theorem ledger_bounded (ops : List LedgerOp) (disk : List DiskEntry) :
    ((runOps (initialState disk) ops).file_list).length ≤ 15 ∧
    (getRecentFiles (runOps (initialState disk) ops)).length ≤ 15 := by
  have h : ((runOps (initialState disk) ops).file_list).length ≤ maxFilesToKeep :=
    runOps_file_list_le ops (initialState disk) (by simp [initialState])
  exact ⟨h, h⟩

/-- C7: a start call while a capture session is already active is
rejected: the already-active warning is emitted, the whole state —
capture flag, current file pointer, packet counter, file list,
prioritized set, disk — is returned unchanged, and no tshark process,
no Scapy capture task and no rotation timer is started by the
rejected call. -/
theorem start_rejected_when_active (st : PCAPState) (useWireshark tsharkAvailable : Bool)
    (newFile : FileInfo) (h : st.capture_active = true) :
    startCaptureService st useWireshark tsharkAvailable newFile =
      (st, { warnedAlreadyActive := true, startedWiresharkProcess := false,
             startedScapyTask := false, startedRotationTimer := false }) := by
  unfold startCaptureService
  rw [if_pos h]

/-- C7 witness: a concrete active state is returned unchanged with the
warning and no started workers. -/
theorem start_rejected_when_active_witness :
    startCaptureService { capture_active := true } true true sampleFile =
      ({ capture_active := true },
       { warnedAlreadyActive := true, startedWiresharkProcess := false,
         startedScapyTask := false, startedRotationTimer := false }) :=
  start_rejected_when_active { capture_active := true } true true sampleFile rfl

/-- C8 amended: feature extraction is total — it returns the service
state unchanged (so no counter of any kind is incremented), produces
exactly one feature record, in order, for every packet whose features
parse, and silently drops every packet whose per-packet feature
computation fails; the number of produced records plus the number of
skipped packets equals the batch size. -/
theorem extraction_skips_malformed {α : Type} (parse : α → Option Features)
    (st : PCAPState) (packets : List α) :
    (extractPacketFeatures parse st packets).1 = st ∧
    (extractPacketFeatures parse st packets).2 = packets.filterMap parse ∧
    (extractPacketFeatures parse st packets).2.length
      + packets.countP (fun p => (parse p).isNone) = packets.length := by
  induction packets with
  | nil => exact ⟨rfl, rfl, rfl⟩
  | cons p ps ih =>
    obtain ⟨ih1, ih2, ih3⟩ := ih
    rw [ih2] at ih3
    cases hp : parse p with
    | none =>
      refine ⟨by simp [extractPacketFeatures, hp, ih1],
        by simp [extractPacketFeatures, hp, ih2], ?_⟩
      simp [extractPacketFeatures, hp, List.countP_cons, ih2]
      omega
    | some f =>
      refine ⟨by simp [extractPacketFeatures, hp, ih1],
        by simp [extractPacketFeatures, hp, ih2], ?_⟩
      simp [extractPacketFeatures, hp, List.countP_cons, ih2]
      omega

/-- C8 counterexample: on a batch with one malformed packet (parse
fails) and one parseable packet, extraction returns the service state
— which holds every counter the service maintains, here with
packet counter 7 — exactly unchanged, while producing one record and
skipping one packet.  No counter of skipped packets exists, refuting
that conjunct of the claim; the remaining conjuncts (skip, no
propagation, records for the parseable rest) hold. -/
theorem no_skip_counter_counterexample :
    (extractPacketFeatures (fun n => if n = 0 then none else some plainSample)
      busyState [0, 1]).1 = busyState ∧
    (extractPacketFeatures (fun n => if n = 0 then none else some plainSample)
      busyState [0, 1]).2 = [plainSample] ∧
    busyState.packet_count = 7 ∧
    ([0, 1].countP (fun n => ((fun n => if n = 0 then none else
      some plainSample) n).isNone)) = 1 :=
  ⟨rfl, rfl, rfl, rfl⟩

end OTICS
